import Mathlib

/-
Formal model of the AssisTea backend hydraulic cycle control subsystem
(irrigation/fertigation controllers, pump pressure controller, and the
rule/fuzzy/hybrid decision engine), translated from the Python sources.

Modelling conventions:
  - Python floats are modelled as rationals; timestamps are rationals.
  - Collaborator calls that may raise are modelled by Option-valued oracle
    parameters (none = the call raised) or Bool raise flags.
  - Stateful methods become functions from an explicit state to a result
    record carrying the new state plus the list of actuator/log events the
    method performed.
-/

namespace AssisTea

/-- Configuration default from app/config/config.py. -/
def ADEQUATE_SOIL_MOISTURE_PERCENT : ℚ := 60

/-- Configuration default from app/config/config.py. -/
def PUMP_PRESSURE_TOLERANCE_KPA : ℚ := 10

/-- Configuration default from app/config/config.py. -/
def PUMP_ADJUSTMENT_INTERVAL_SEC : ℚ := 2

/-- Configuration default from app/config/config.py. -/
def PRESSURE_LOSS_PER_DEGREE_SLOPE_KPA : ℚ := 5/2

/-- Configuration default from app/config/config.py. -/
def WATER_DENSITY_KG_PER_M3 : ℚ := 1000

/-- Configuration default from app/config/config.py. -/
def GRAVITY_M_PER_S2 : ℚ := 981/100

/-- Model of the Python builtin abs on floats, written so that it reduces in
the kernel. -/
def ratAbs (q : ℚ) : ℚ := if q < 0 then -q else q

lemma ratAbs_eq_abs (q : ℚ) : ratAbs q = |q| := by
  unfold ratAbs
  by_cases h : q < 0
  · rw [if_pos h, abs_of_neg h]
  · rw [if_neg h, abs_of_nonneg (not_lt.mp h)]

/-! Hydraulic pump controller (app/hydraulics/pump_controller.py,
    class HydraulicPumpController). -/

/-- Mutable state of HydraulicPumpController: target_pressure_kpa,
last_adjustment_time and is_controlling, as set in its constructor and
mutated by start_pressure_control / stop_pressure_control /
maintain_pressure. -/
structure PumpState where
  target_pressure_kpa : ℚ
  last_adjustment_time : ℚ
  is_controlling : Bool
deriving DecidableEq

/-- The status string returned by maintain_pressure. -/
inductive PumpStatus
  | not_controlling
  | waiting
  | stable
  | adjusted
deriving DecidableEq

/-- Result of one maintain_pressure call: the returned status, the state of
the controller after the call, and the list of set_pressure values pushed
to the pump actuator during the call (empty = no actuator mutation). -/
structure MaintainResult where
  status : PumpStatus
  state : PumpState
  setPressureCalls : List ℚ
deriving DecidableEq

/-- Translation of HydraulicPumpController.maintain_pressure.  The Python
method reads time.time(); here the clock value is the parameter now.  The
argument current_arg models current_pressure_kpa (none = the caller passed
None, in which case the method reads pump_interface.get_current_pressure(),
modelled by iface_pressure). -/
def maintain_pressure (s : PumpState) (now : ℚ) (current_arg : Option ℚ)
    (iface_pressure : ℚ) : MaintainResult :=
  if s.is_controlling = false then
    ⟨.not_controlling, s, []⟩
  else if now - s.last_adjustment_time < PUMP_ADJUSTMENT_INTERVAL_SEC then
    ⟨.waiting, s, []⟩
  else
    let current := current_arg.getD iface_pressure
    let pressure_diff := s.target_pressure_kpa - current
    if ratAbs pressure_diff ≤ PUMP_PRESSURE_TOLERANCE_KPA then
      ⟨.stable, s, []⟩
    else
      let new_target := s.target_pressure_kpa + pressure_diff * (1/2)
      ⟨.adjusted, { s with last_adjustment_time := now }, [new_target]⟩

/-- One call of maintain_pressure with an explicitly passed (fixed) actual
pressure, as in the convergence test scenario of the spec. -/
def maintainCall (s : PumpState) (t : ℚ) (current : ℚ) : MaintainResult :=
  maintain_pressure s t (some current) 0

/-- Controller state after k calls of maintain_pressure with a fixed actual
pressure, the k-th call (0-indexed) happening at time
t0 + k * PUMP_ADJUSTMENT_INTERVAL_SEC. -/
def pumpStateAfter (s : PumpState) (t0 current : ℚ) : ℕ → PumpState
  | 0 => s
  | k + 1 =>
      (maintainCall (pumpStateAfter s t0 current k)
        (t0 + k * PUMP_ADJUSTMENT_INTERVAL_SEC) current).state

/-- Status returned by the k-th (0-indexed) interval-spaced call of
maintain_pressure with a fixed actual pressure. -/
def statusOfCall (s : PumpState) (t0 current : ℚ) (k : ℕ) : PumpStatus :=
  (maintainCall (pumpStateAfter s t0 current k)
    (t0 + k * PUMP_ADJUSTMENT_INTERVAL_SEC) current).status

lemma pumpStateAfter_invariant (s : PumpState) (t0 current : ℚ) (k : ℕ)
    (hc : s.is_controlling = true)
    (h0 : s.last_adjustment_time + PUMP_ADJUSTMENT_INTERVAL_SEC ≤ t0) :
    (pumpStateAfter s t0 current k).target_pressure_kpa = s.target_pressure_kpa ∧
    (pumpStateAfter s t0 current k).is_controlling = true ∧
    (pumpStateAfter s t0 current k).last_adjustment_time +
      PUMP_ADJUSTMENT_INTERVAL_SEC ≤ t0 + k * PUMP_ADJUSTMENT_INTERVAL_SEC := by
  induction k with
  | zero =>
    refine ⟨rfl, hc, ?_⟩
    simpa [pumpStateAfter] using h0
  | succ k ih =>
    obtain ⟨htgt, hctl, hlast⟩ := ih
    have hdelta : (0:ℚ) < PUMP_ADJUSTMENT_INTERVAL_SEC := by
      norm_num [PUMP_ADJUSTMENT_INTERVAL_SEC]
    have hnotwait :
        ¬ (t0 + k * PUMP_ADJUSTMENT_INTERVAL_SEC -
            (pumpStateAfter s t0 current k).last_adjustment_time <
          PUMP_ADJUSTMENT_INTERVAL_SEC) := by
      push_neg
      linarith
    have hstep : pumpStateAfter s t0 current (k + 1) =
        (maintainCall (pumpStateAfter s t0 current k)
          (t0 + k * PUMP_ADJUSTMENT_INTERVAL_SEC) current).state := rfl
    by_cases hst :
        ratAbs ((pumpStateAfter s t0 current k).target_pressure_kpa - current) ≤
          PUMP_PRESSURE_TOLERANCE_KPA
    · have hcall : maintainCall (pumpStateAfter s t0 current k)
          (t0 + k * PUMP_ADJUSTMENT_INTERVAL_SEC) current =
          ⟨.stable, pumpStateAfter s t0 current k, []⟩ := by
        simp [maintainCall, maintain_pressure, hctl, hnotwait, hst]
      rw [hstep, hcall]
      refine ⟨htgt, hctl, ?_⟩
      push_cast
      linarith
    · have hcall : maintainCall (pumpStateAfter s t0 current k)
          (t0 + k * PUMP_ADJUSTMENT_INTERVAL_SEC) current =
          ⟨.adjusted,
            { pumpStateAfter s t0 current k with
                last_adjustment_time := t0 + k * PUMP_ADJUSTMENT_INTERVAL_SEC },
            [(pumpStateAfter s t0 current k).target_pressure_kpa +
              ((pumpStateAfter s t0 current k).target_pressure_kpa - current) *
                (1/2)]⟩ := by
        simp [maintainCall, maintain_pressure, hctl, hnotwait, hst]
      rw [hstep, hcall]
      refine ⟨htgt, hctl, ?_⟩
      push_cast
      linarith

/-- Claim C2 (counterexample).  The claim asserts that interval-spaced
maintain_pressure calls with a fixed actual pressure monotonically reduce
the gap between the controller target and the current pressure until it is
within tolerance, after which calls return stable.  With target 100, fixed
actual pressure 50 and tolerance 10, the first two interval-spaced calls
both return adjusted, the controller target after them is still 100, so the
gap is still 50 and has not been reduced at all, and it is not within
tolerance. -/
theorem pump_convergence_counterexample :
    statusOfCall ⟨100, 0, true⟩ 10 50 0 = .adjusted ∧
    statusOfCall ⟨100, 0, true⟩ 10 50 1 = .adjusted ∧
    (pumpStateAfter ⟨100, 0, true⟩ 10 50 2).target_pressure_kpa - 50 = 50 ∧
    ¬ ((pumpStateAfter ⟨100, 0, true⟩ 10 50 2).target_pressure_kpa - 50 ≤
        PUMP_PRESSURE_TOLERANCE_KPA) := by
  refine ⟨?_, ?_, ?_, ?_⟩ <;>
    norm_num [statusOfCall, maintainCall, maintain_pressure, pumpStateAfter,
      ratAbs, PUMP_ADJUSTMENT_INTERVAL_SEC, PUMP_PRESSURE_TOLERANCE_KPA]

/-- Claim C2 (amended).  maintain_pressure never mutates the controller
target, so with a fixed actual pressure the gap between target and current
pressure is invariant across interval-spaced calls: if the initial gap is
within PUMP_PRESSURE_TOLERANCE_KPA every call returns stable, and otherwise
every call returns adjusted (never stable) and the gap never shrinks. -/
theorem pump_fixed_pressure_no_convergence (s : PumpState) (t0 current : ℚ) (k : ℕ)
    (hc : s.is_controlling = true)
    (h0 : s.last_adjustment_time + PUMP_ADJUSTMENT_INTERVAL_SEC ≤ t0) :
    (pumpStateAfter s t0 current k).target_pressure_kpa = s.target_pressure_kpa ∧
    ((ratAbs (s.target_pressure_kpa - current) ≤ PUMP_PRESSURE_TOLERANCE_KPA →
        statusOfCall s t0 current k = .stable) ∧
      (PUMP_PRESSURE_TOLERANCE_KPA < ratAbs (s.target_pressure_kpa - current) →
        statusOfCall s t0 current k = .adjusted)) := by
  obtain ⟨htgt, hctl, hlast⟩ := pumpStateAfter_invariant s t0 current k hc h0
  refine ⟨htgt, ?_, ?_⟩
  · intro htol
    have hnotwait :
        ¬ (t0 + k * PUMP_ADJUSTMENT_INTERVAL_SEC -
            (pumpStateAfter s t0 current k).last_adjustment_time <
          PUMP_ADJUSTMENT_INTERVAL_SEC) := by
      push_neg
      linarith
    simp [statusOfCall, maintainCall, maintain_pressure, hctl, hnotwait, htgt, htol]
  · intro htol
    have hnotwait :
        ¬ (t0 + k * PUMP_ADJUSTMENT_INTERVAL_SEC -
            (pumpStateAfter s t0 current k).last_adjustment_time <
          PUMP_ADJUSTMENT_INTERVAL_SEC) := by
      push_neg
      linarith
    have : ¬ (ratAbs ((pumpStateAfter s t0 current k).target_pressure_kpa - current) ≤
        PUMP_PRESSURE_TOLERANCE_KPA) := by
      rw [htgt]
      exact not_le.mpr htol
    simp [statusOfCall, maintainCall, maintain_pressure, hctl, hnotwait, this]

/-- Witness for pump_fixed_pressure_no_convergence at a concrete input. -/
theorem pump_fixed_pressure_no_convergence_witness :
    ((⟨100, 0, true⟩ : PumpState).is_controlling = true ∧
      (⟨100, 0, true⟩ : PumpState).last_adjustment_time +
        PUMP_ADJUSTMENT_INTERVAL_SEC ≤ 10) ∧
    ((pumpStateAfter ⟨100, 0, true⟩ 10 50 3).target_pressure_kpa =
      (⟨100, 0, true⟩ : PumpState).target_pressure_kpa ∧
      statusOfCall ⟨100, 0, true⟩ 10 50 3 = .adjusted) := by
  refine ⟨⟨rfl, by norm_num [PUMP_ADJUSTMENT_INTERVAL_SEC]⟩, ?_, ?_⟩
  · exact (pump_fixed_pressure_no_convergence ⟨100, 0, true⟩ 10 50 3 rfl
      (by norm_num [PUMP_ADJUSTMENT_INTERVAL_SEC])).1
  · exact (pump_fixed_pressure_no_convergence ⟨100, 0, true⟩ 10 50 3 rfl
      (by norm_num [PUMP_ADJUSTMENT_INTERVAL_SEC])).2.2
      (by norm_num [ratAbs, PUMP_PRESSURE_TOLERANCE_KPA])

/-- Claim C3 (counterexample).  The claim asserts in particular that any two
maintain_pressure calls less than PUMP_ADJUSTMENT_INTERVAL_SEC apart yield
status waiting on the second call.  Take a controlling state with target 100
and last_adjustment_time 0, and call with actual pressure 100 at times 100
and 100.5 (only 0.5 apart): since the first call is within tolerance it
performs no adjustment, so the second call returns stable, not waiting. -/
theorem pump_rate_limit_counterexample :
    ((100:ℚ) + 1/2) - 100 < PUMP_ADJUSTMENT_INTERVAL_SEC ∧
    (maintain_pressure ⟨100, 0, true⟩ 100 (some 100) 0).status = .stable ∧
    (maintain_pressure
        (maintain_pressure ⟨100, 0, true⟩ 100 (some 100) 0).state
        (100 + 1/2) (some 100) 0).status = .stable ∧
    ¬ ((maintain_pressure
        (maintain_pressure ⟨100, 0, true⟩ 100 (some 100) 0).state
        (100 + 1/2) (some 100) 0).status = .waiting) := by
  refine ⟨?_, ?_, ?_, ?_⟩ <;>
    norm_num [maintain_pressure, ratAbs, PUMP_ADJUSTMENT_INTERVAL_SEC,
      PUMP_PRESSURE_TOLERANCE_KPA]
  decide

/-- Claim C3 (amended).  Full case analysis of maintain_pressure: when not
controlling it returns not_controlling and changes nothing; when called less
than PUMP_ADJUSTMENT_INTERVAL_SEC after the last adjustment it returns
waiting with no actuator mutation; when the gap is within
PUMP_PRESSURE_TOLERANCE_KPA it returns stable and makes no change; otherwise
it pushes target + 0.5 * (target - current) to the actuator, records the
adjustment timestamp, and returns adjusted.  The rate-limiting consequence
holds for calls following an adjustment: if a call performs an adjustment,
any call less than PUMP_ADJUSTMENT_INTERVAL_SEC later returns waiting with
no actuator mutation. -/
theorem maintain_pressure_case_analysis (s : PumpState) (now : ℚ)
    (current_arg : Option ℚ) (iface_pressure : ℚ) :
    (s.is_controlling = false →
      maintain_pressure s now current_arg iface_pressure =
        ⟨.not_controlling, s, []⟩) ∧
    (s.is_controlling = true →
      now - s.last_adjustment_time < PUMP_ADJUSTMENT_INTERVAL_SEC →
      maintain_pressure s now current_arg iface_pressure = ⟨.waiting, s, []⟩) ∧
    (s.is_controlling = true →
      ¬ (now - s.last_adjustment_time < PUMP_ADJUSTMENT_INTERVAL_SEC) →
      ratAbs (s.target_pressure_kpa - current_arg.getD iface_pressure) ≤
        PUMP_PRESSURE_TOLERANCE_KPA →
      maintain_pressure s now current_arg iface_pressure = ⟨.stable, s, []⟩) ∧
    (s.is_controlling = true →
      ¬ (now - s.last_adjustment_time < PUMP_ADJUSTMENT_INTERVAL_SEC) →
      PUMP_PRESSURE_TOLERANCE_KPA <
        ratAbs (s.target_pressure_kpa - current_arg.getD iface_pressure) →
      maintain_pressure s now current_arg iface_pressure =
        ⟨.adjusted, { s with last_adjustment_time := now },
          [s.target_pressure_kpa +
            (s.target_pressure_kpa - current_arg.getD iface_pressure) * (1/2)]⟩) ∧
    (∀ t2 c2 p2,
      (maintain_pressure s now current_arg iface_pressure).status = .adjusted →
      t2 - now < PUMP_ADJUSTMENT_INTERVAL_SEC →
      maintain_pressure (maintain_pressure s now current_arg iface_pressure).state
          t2 c2 p2 =
        ⟨.waiting, (maintain_pressure s now current_arg iface_pressure).state, []⟩) := by
  refine ⟨?_, ?_, ?_, ?_, ?_⟩
  · intro h
    simp [maintain_pressure, h]
  · intro h hw
    simp [maintain_pressure, h, hw]
  · intro h hw htol
    simp [maintain_pressure, h, hw, htol]
  · intro h hw htol
    simp [maintain_pressure, h, hw, not_le.mpr htol]
  · intro t2 c2 p2 hadj hlt
    by_cases h : s.is_controlling = true
    · by_cases hw : now - s.last_adjustment_time < PUMP_ADJUSTMENT_INTERVAL_SEC
      · have hres : maintain_pressure s now current_arg iface_pressure =
            ⟨.waiting, s, []⟩ := by
          simp [maintain_pressure, h, hw]
        rw [hres] at hadj
        exact PumpStatus.noConfusion hadj
      · by_cases htol :
            ratAbs (s.target_pressure_kpa - current_arg.getD iface_pressure) ≤
              PUMP_PRESSURE_TOLERANCE_KPA
        · have hres : maintain_pressure s now current_arg iface_pressure =
              ⟨.stable, s, []⟩ := by
            simp [maintain_pressure, h, hw, htol]
          rw [hres] at hadj
          exact PumpStatus.noConfusion hadj
        · have hres : maintain_pressure s now current_arg iface_pressure =
              ⟨.adjusted, { s with last_adjustment_time := now },
                [s.target_pressure_kpa +
                  (s.target_pressure_kpa - current_arg.getD iface_pressure) *
                    (1/2)]⟩ := by
            simp [maintain_pressure, h, hw, htol]
          rw [hres]
          simp [maintain_pressure, h, hlt]
    · have h' : s.is_controlling = false := by
        cases hb : s.is_controlling
        · rfl
        · exact absurd hb h
      have hres : maintain_pressure s now current_arg iface_pressure =
          ⟨.not_controlling, s, []⟩ := by
        simp [maintain_pressure, h']
      rw [hres] at hadj
      exact PumpStatus.noConfusion hadj

/-- Witness for maintain_pressure_case_analysis at a concrete input. -/
theorem maintain_pressure_case_analysis_witness :
    ((⟨100, 0, true⟩ : PumpState).is_controlling = true ∧
      ¬ ((10:ℚ) - (⟨100, 0, true⟩ : PumpState).last_adjustment_time <
          PUMP_ADJUSTMENT_INTERVAL_SEC) ∧
      PUMP_PRESSURE_TOLERANCE_KPA <
        ratAbs ((⟨100, 0, true⟩ : PumpState).target_pressure_kpa -
          (some (50:ℚ)).getD 0)) ∧
    maintain_pressure ⟨100, 0, true⟩ 10 (some 50) 0 =
      ⟨.adjusted, ⟨100, 10, true⟩, [125]⟩ := by
  have h1 : (⟨100, 0, true⟩ : PumpState).is_controlling = true := rfl
  have h2 : ¬ ((10:ℚ) - (⟨100, 0, true⟩ : PumpState).last_adjustment_time <
      PUMP_ADJUSTMENT_INTERVAL_SEC) := by
    norm_num [PUMP_ADJUSTMENT_INTERVAL_SEC]
  have h3 : PUMP_PRESSURE_TOLERANCE_KPA <
      ratAbs ((⟨100, 0, true⟩ : PumpState).target_pressure_kpa -
        (some (50:ℚ)).getD 0) := by
    norm_num [ratAbs, PUMP_PRESSURE_TOLERANCE_KPA]
  refine ⟨⟨h1, h2, h3⟩, ?_⟩
  have h := (maintain_pressure_case_analysis ⟨100, 0, true⟩ 10 (some 50) 0).2.2.2.1
    h1 h2 h3
  rw [h]
  norm_num

/-! Rule-based decision engine (app/decision_engine/rule_engine.py,
    class RuleEngine). -/

/-- Identifies which branch of RuleEngine.should_irrigate produced the
decision (the Python code stores a formatted reason string; only its
identity matters to the control flow). -/
inductive RuleReason
  | weatherNotClear
  | moistureAdequate
  | belowAdequate
  | unreachableDefault
deriving DecidableEq

/-- Decision dictionary produced by RuleEngine.should_irrigate. -/
structure Decision where
  should_irrigate : Bool
  confidence : ℚ
  reason : RuleReason
deriving DecidableEq

/-- Translation of RuleEngine.should_irrigate.  The final fallthrough
(return of the initial decision with confidence 0) is kept even though it is
unreachable for real numbers, mirroring the source. -/
def rule_should_irrigate (soil_moisture_percent : ℚ) (weather_condition : String) :
    Decision :=
  if weather_condition ≠ "clear" then
    ⟨false, 1, .weatherNotClear⟩
  else if soil_moisture_percent ≥ ADEQUATE_SOIL_MOISTURE_PERCENT then
    ⟨false, 1, .moistureAdequate⟩
  else if soil_moisture_percent < ADEQUATE_SOIL_MOISTURE_PERCENT then
    ⟨true, 1, .belowAdequate⟩
  else
    ⟨false, 0, .unreachableDefault⟩

lemma rule_should_irrigate_true_iff (m : ℚ) (w : String) :
    (rule_should_irrigate m w).should_irrigate = true ↔
      w = "clear" ∧ m < ADEQUATE_SOIL_MOISTURE_PERCENT := by
  unfold rule_should_irrigate
  by_cases hw : w = "clear"
  · by_cases hm : m ≥ ADEQUATE_SOIL_MOISTURE_PERCENT
    · simp [hw, hm, not_lt.mpr hm]
    · simp [hw, hm, lt_of_not_ge hm]
  · simp [hw]

/-- Claim C8.  RuleEngine.should_irrigate is a total function implementing
the priority chain: for every moisture value m in the range 0 to 100, the
decision for any weather other than clear (in particular rainy) is False
with confidence 1; and for clear weather the decision is True exactly when
m is below ADEQUATE_SOIL_MOISTURE_PERCENT, with confidence 1 in every
branch. -/
theorem rule_engine_priority_chain (m : ℚ) (hm0 : 0 ≤ m) (hm1 : m ≤ 100) :
    (∀ w : String, w ≠ "clear" →
      rule_should_irrigate m w = ⟨false, 1, .weatherNotClear⟩) ∧
    ((rule_should_irrigate m "clear").should_irrigate = true ↔
      m < ADEQUATE_SOIL_MOISTURE_PERCENT) ∧
    (rule_should_irrigate m "clear").confidence = 1 := by
  refine ⟨?_, ?_, ?_⟩
  · intro w hw
    simp [rule_should_irrigate, hw]
  · rw [rule_should_irrigate_true_iff]
    simp
  · unfold rule_should_irrigate
    by_cases hm : m ≥ ADEQUATE_SOIL_MOISTURE_PERCENT
    · simp [hm]
    · simp [hm, lt_of_not_ge hm]

/-- Witness for rule_engine_priority_chain at a concrete input. -/
theorem rule_engine_priority_chain_witness :
    ((0:ℚ) ≤ 30 ∧ (30:ℚ) ≤ 100) ∧
    ((rule_should_irrigate 30 "clear").should_irrigate = true ↔
      (30:ℚ) < ADEQUATE_SOIL_MOISTURE_PERCENT) := by
  exact ⟨⟨by norm_num, by norm_num⟩,
    (rule_engine_priority_chain 30 (by norm_num) (by norm_num)).2.1⟩

/-! Fuzzy inference engine (app/decision_engine/fuzzy_engine.py,
    class FuzzyEngine). -/

/-- Triangular membership function as built by skfuzzy.trimf with corners
a, b, c and as evaluated by linear interpolation at a crisp input: 1 at the
peak b, the rising edge on (a, b), the falling edge on (b, c), and 0
elsewhere.  All membership corners used by FuzzyEngine are integers aligned
with the integer sample universes, so this closed form agrees with the
sampled arrays of the source. -/
def trimf (a b c x : ℚ) : ℚ :=
  if x = b then 1
  else if a < x ∧ x < b then (x - a) / (b - a)
  else if b < x ∧ x < c then (c - x) / (c - b)
  else 0

lemma trimf_nonneg (a b c x : ℚ) : 0 ≤ trimf a b c x := by
  unfold trimf
  by_cases h1 : x = b
  · simp [h1]
  · rw [if_neg h1]
    by_cases h2 : a < x ∧ x < b
    · rw [if_pos h2]
      have hba : 0 < b - a := by linarith [h2.1, h2.2]
      have hxa : 0 ≤ x - a := by linarith [h2.1]
      exact div_nonneg hxa hba.le
    · rw [if_neg h2]
      by_cases h3 : b < x ∧ x < c
      · rw [if_pos h3]
        have hcb : 0 < c - b := by linarith [h3.1, h3.2]
        have hcx : 0 ≤ c - x := by linarith [h3.2]
        exact div_nonneg hcx hcb.le
      · rw [if_neg h3]

/-- Membership function for dry soil moisture, trimf [0, 0, 40]. -/
def mfDry (x : ℚ) : ℚ := trimf 0 0 40 x

/-- Membership function for moderate soil moisture, trimf [30, 50, 70]. -/
def mfModerate (x : ℚ) : ℚ := trimf 30 50 70 x

/-- Membership function for wet soil moisture, trimf [60, 100, 100]. -/
def mfWet (x : ℚ) : ℚ := trimf 60 100 100 x

/-- Membership function for clear weather, trimf [0, 0, 1]. -/
def mfWClear (x : ℚ) : ℚ := trimf 0 0 1 x

/-- Membership function for rainy weather, trimf [1, 2, 2]. -/
def mfWRainy (x : ℚ) : ℚ := trimf 1 2 2 x

/-- Membership function for low irrigation need, trimf [0, 0, 40]. -/
def mfLow (x : ℚ) : ℚ := trimf 0 0 40 x

/-- Membership function for medium irrigation need, trimf [30, 50, 70]. -/
def mfMedium (x : ℚ) : ℚ := trimf 30 50 70 x

/-- Membership function for high irrigation need, trimf [60, 100, 100]. -/
def mfHigh (x : ℚ) : ℚ := trimf 60 100 100 x

/-- Model of the Python str.lower() method, written character by character
so that it reduces in the kernel. -/
def strLower (s : String) : String := String.mk (s.data.map Char.toLower)

/-- Numeric weather coding of FuzzyEngine.evaluate_irrigation_need:
weather_map.get(weather_condition.lower(), 1) with clear=0, cloudy=1,
rainy=2. -/
def weatherValue (w : String) : ℚ :=
  let l := strLower w
  if l = "clear" then 0
  else if l = "cloudy" then 1
  else if l = "rainy" then 2
  else 1

/-- Aggregated output membership of the Mamdani system of FuzzyEngine at a
crisp output point x, given the activations a1 (rule dry and clear, output
high), a2 (rule moderate and clear, output medium) and a3 (rule wet or
rainy, output low): each consequent is clipped at its activation and the
clipped sets are combined by max. -/
def aggMF (a1 a2 a3 x : ℚ) : ℚ :=
  max (min a1 (mfHigh x)) (max (min a2 (mfMedium x)) (min a3 (mfLow x)))

/-- Numerator of the centroid of the aggregated output membership over the
integer output universe 0..100 of the source. -/
def fuzzyNum (a1 a2 a3 : ℚ) : ℚ :=
  Finset.sum (Finset.range 101) (fun x => (x : ℚ) * aggMF a1 a2 a3 (x : ℚ))

/-- Total mass of the aggregated output membership over the integer output
universe 0..100 of the source. -/
def fuzzyDen (a1 a2 a3 : ℚ) : ℚ :=
  Finset.sum (Finset.range 101) (fun x => aggMF a1 a2 a3 (x : ℚ))

/-- Model of the irrigation_sim.compute() step of
FuzzyEngine.evaluate_irrigation_need: the antecedent memberships are
evaluated at the clamped moisture input and the numeric weather code, the
three rules fire with min for AND and max for OR, and the clipped
consequents are aggregated and defuzzified by centroid over the output
universe.  The centroid is modelled as the mass-weighted mean over the
integer universe; the sign of score - 50, which is all the decision logic
uses, agrees with the piecewise-linear centroid computed by the library.
A zero aggregate mass makes the computation raise (modelled as none), which
the caller turns into the neutral fallback. -/
def fuzzyCompute (soil_moisture_percent : ℚ) (weather_condition : String) :
    Option ℚ :=
  let m := max 0 (min 100 soil_moisture_percent)
  let wv := weatherValue weather_condition
  let a1 := min (mfDry m) (mfWClear wv)
  let a2 := min (mfModerate m) (mfWClear wv)
  let a3 := max (mfWet m) (mfWRainy wv)
  let den := fuzzyDen a1 a2 a3
  if den = 0 then none else some (fuzzyNum a1 a2 a3 / den)

/-- Decision dictionary produced by FuzzyEngine.evaluate_irrigation_need. -/
structure FuzzyDecision where
  irrigation_need_score : ℚ
  should_irrigate : Bool
  confidence : ℚ
deriving DecidableEq

/-- Translation of the tail of FuzzyEngine.evaluate_irrigation_need, taking
the outcome of the guarded compute step as an argument (none = the fuzzy
computation raised, in which case the except branch substitutes the neutral
score 50.0).  The method itself never raises. -/
def evaluate_irrigation_need_from (computeResult : Option ℚ) : FuzzyDecision :=
  let score := match computeResult with
    | some s => s
    | none => 50
  { irrigation_need_score := score
    should_irrigate := decide (score ≥ 50)
    confidence := ratAbs (score - 50) / 50 }

/-- FuzzyEngine.evaluate_irrigation_need with the compute step actually
performed. -/
def evaluate_irrigation_need (soil_moisture_percent : ℚ)
    (weather_condition : String) : FuzzyDecision :=
  evaluate_irrigation_need_from (fuzzyCompute soil_moisture_percent weather_condition)

/-- Claim C9.  Whatever the inputs, if the internal fuzzy computation raises
(compute outcome none), evaluate_irrigation_need does not propagate the
exception: it is a total function of the compute outcome and returns the
neutral fallback score 50.0, which under the score-at-least-50 threshold
yields should_irrigate = true (fail-open) with confidence 0. -/
theorem fuzzy_fallback_neutral :
    evaluate_irrigation_need_from none =
      ⟨50, true, 0⟩ := by
  norm_num [evaluate_irrigation_need_from, ratAbs]

lemma mfMedium_symm (x : ℚ) : mfMedium (100 - x) = mfMedium x := by
  unfold mfMedium trimf
  by_cases h1 : x = 50
  · rw [h1]
    norm_num
  · have h1a : ¬((100:ℚ) - x = 50) := fun h => h1 (by linarith)
    rw [if_neg h1a, if_neg h1]
    by_cases h2 : (30:ℚ) < x ∧ x < 50
    · have ha : ¬((30:ℚ) < 100 - x ∧ 100 - x < 50) := by
        rintro ⟨_, hb⟩
        linarith [h2.2]
      have hb : (50:ℚ) < 100 - x ∧ 100 - x < 70 :=
        ⟨by linarith [h2.2], by linarith [h2.1]⟩
      rw [if_neg ha, if_pos hb, if_pos h2]
      have hval : (70:ℚ) - (100 - x) = x - 30 := by ring
      rw [hval]
      norm_num
    · by_cases h3 : (50:ℚ) < x ∧ x < 70
      · have ha : (30:ℚ) < 100 - x ∧ 100 - x < 50 :=
          ⟨by linarith [h3.2], by linarith [h3.1]⟩
        have hb : ¬((50:ℚ) < x ∧ x < 50) := by
          rintro ⟨hc, hd⟩
          linarith
        rw [if_pos ha]
        rw [if_neg (show ¬((30:ℚ) < x ∧ x < 50) from h2), if_pos h3]
        have hval : (100:ℚ) - x - 30 = 70 - x := by ring
        rw [hval]
        norm_num
      · have ha : ¬((30:ℚ) < 100 - x ∧ 100 - x < 50) := by
          rintro ⟨hc, hd⟩
          exact h3 ⟨by linarith, by linarith⟩
        have hb : ¬((50:ℚ) < 100 - x ∧ 100 - x < 70) := by
          rintro ⟨hc, hd⟩
          exact h2 ⟨by linarith, by linarith⟩
        rw [if_neg ha, if_neg hb, if_neg h2, if_neg h3]

lemma mfHigh_eq_zero (x : ℚ) (hx : x ≤ 60) : mfHigh x = 0 := by
  unfold mfHigh trimf
  have h1 : ¬(x = 100) := by
    intro h
    rw [h] at hx
    norm_num at hx
  have h2 : ¬((60:ℚ) < x ∧ x < 100) := by
    rintro ⟨h, _⟩
    linarith
  have h3 : ¬((100:ℚ) < x ∧ x < 100) := by
    rintro ⟨ha, hb⟩
    linarith
  rw [if_neg h1, if_neg h2, if_neg h3]

lemma mfWet_eq_zero (x : ℚ) (hx : x ≤ 60) : mfWet x = 0 :=
  mfHigh_eq_zero x hx

lemma aggMF_no_low (a1 a2 x : ℚ) (ha2 : 0 ≤ a2) :
    aggMF a1 a2 0 x = max (min a1 (mfHigh x)) (min a2 (mfMedium x)) := by
  unfold aggMF
  have hlow : min (0:ℚ) (mfLow x) = 0 := min_eq_left (trimf_nonneg _ _ _ _)
  rw [hlow]
  have hmed : (0:ℚ) ≤ min a2 (mfMedium x) := le_min ha2 (trimf_nonneg _ _ _ _)
  rw [max_eq_left hmed]

lemma mfMedium_nonneg (x : ℚ) : 0 ≤ mfMedium x := trimf_nonneg _ _ _ _

lemma mfHigh_nonneg (x : ℚ) : 0 ≤ mfHigh x := trimf_nonneg _ _ _ _

lemma aggMF_nonneg (a1 a2 a3 x : ℚ) (ha1 : 0 ≤ a1) : 0 ≤ aggMF a1 a2 a3 x :=
  le_trans (le_min ha1 (mfHigh_nonneg _)) (le_max_left _ _)

lemma sum_sym_zero (a2 : ℚ) :
    Finset.sum (Finset.range 101)
      (fun j => ((j : ℚ) - 50) * min a2 (mfMedium (j : ℚ))) = 0 := by
  have h := Finset.sum_range_reflect
    (fun j => ((j : ℚ) - 50) * min a2 (mfMedium (j : ℚ))) 101
  have key : ∀ j ∈ Finset.range 101,
      (((101 - 1 - j : ℕ) : ℚ) - 50) * min a2 (mfMedium ((101 - 1 - j : ℕ) : ℚ)) =
        -(((j : ℚ) - 50) * min a2 (mfMedium (j : ℚ))) := by
    intro j hj
    have hj' : j ≤ 100 := by
      have := Finset.mem_range.mp hj
      omega
    have hnat : (101 - 1 - j : ℕ) = 100 - j := by omega
    have hcast : ((100 - j : ℕ) : ℚ) = 100 - (j : ℚ) := by
      rw [Nat.cast_sub hj']
      norm_num
    rw [hnat, hcast, mfMedium_symm]
    ring
  rw [Finset.sum_congr rfl key, Finset.sum_neg_distrib] at h
  linarith [h]

lemma fuzzy_centroid_ge (a1 a2 : ℚ) (ha1 : 0 ≤ a1) (ha2 : 0 ≤ a2) :
    50 * fuzzyDen a1 a2 0 ≤ fuzzyNum a1 a2 0 := by
  have hdiff : fuzzyNum a1 a2 0 - 50 * fuzzyDen a1 a2 0 =
      Finset.sum (Finset.range 101)
        (fun j => ((j : ℚ) - 50) * aggMF a1 a2 0 (j : ℚ)) := by
    unfold fuzzyNum fuzzyDen
    rw [Finset.mul_sum, ← Finset.sum_sub_distrib]
    exact Finset.sum_congr rfl (fun j _ => by ring)
  have hsplit : Finset.sum (Finset.range 101)
      (fun j => ((j : ℚ) - 50) * aggMF a1 a2 0 (j : ℚ)) =
      Finset.sum (Finset.range 101)
        (fun j => ((j : ℚ) - 50) * min a2 (mfMedium (j : ℚ)))
      + Finset.sum (Finset.range 101)
          (fun j => ((j : ℚ) - 50) *
            (aggMF a1 a2 0 (j : ℚ) - min a2 (mfMedium (j : ℚ)))) := by
    rw [← Finset.sum_add_distrib]
    exact Finset.sum_congr rfl (fun j _ => by ring)
  have hterm : ∀ j ∈ Finset.range 101,
      0 ≤ ((j : ℚ) - 50) * (aggMF a1 a2 0 (j : ℚ) - min a2 (mfMedium (j : ℚ))) := by
    intro j _
    rw [aggMF_no_low a1 a2 _ ha2]
    by_cases hle : j ≤ 60
    · have hx : ((j : ℕ) : ℚ) ≤ 60 := by exact_mod_cast hle
      rw [mfHigh_eq_zero _ hx, min_eq_right ha1,
        max_eq_right (le_min ha2 (mfMedium_nonneg _))]
      simp
    · have hx : (50:ℚ) ≤ (j : ℚ) := by
        have : 50 ≤ j := by omega
        exact_mod_cast this
      apply mul_nonneg
      · linarith
      · have := le_max_right (min a1 (mfHigh (j : ℚ))) (min a2 (mfMedium (j : ℚ)))
        linarith
  have hz := sum_sym_zero a2
  have hpos := Finset.sum_nonneg hterm
  linarith [hdiff, hsplit]

lemma weatherValue_clear : weatherValue "clear" = 0 := rfl

lemma mfWClear_zero : mfWClear 0 = 1 := by
  norm_num [mfWClear, trimf]

lemma mfWRainy_zero : mfWRainy 0 = 0 := by
  norm_num [mfWRainy, trimf]

/-- With clear weather and moisture below the adequate threshold the fuzzy
engine decides to irrigate: the wet and rainy memberships vanish, so the
aggregated output only carries medium (symmetric about 50) and high (mass
above 60) contributions, forcing the centroid to be at least 50; and if the
computation raises instead, the neutral fallback 50 also decides true. -/
lemma fuzzy_clear_true (m : ℚ) (hm : m < ADEQUATE_SOIL_MOISTURE_PERCENT) :
    (evaluate_irrigation_need m "clear").should_irrigate = true := by
  have hm60 : m < 60 := by
    simpa [ADEQUATE_SOIL_MOISTURE_PERCENT] using hm
  have hmclamp : max 0 (min 100 m) ≤ 60 := by
    rw [max_le_iff]
    exact ⟨by norm_num, le_trans (min_le_right _ _) hm60.le⟩
  simp only [evaluate_irrigation_need, fuzzyCompute, weatherValue_clear,
    mfWClear_zero, mfWRainy_zero, mfWet_eq_zero _ hmclamp, max_self]
  set a1 := min (mfDry (max 0 (min 100 m))) 1 with ha1def
  set a2 := min (mfModerate (max 0 (min 100 m))) 1 with ha2def
  have ha1 : 0 ≤ a1 := le_min (trimf_nonneg _ _ _ _) (by norm_num)
  have ha2 : 0 ≤ a2 := le_min (trimf_nonneg _ _ _ _) (by norm_num)
  by_cases hden : fuzzyDen a1 a2 0 = 0
  · rw [if_pos hden]
    norm_num [evaluate_irrigation_need_from]
  · rw [if_neg hden]
    have hden0 : 0 ≤ fuzzyDen a1 a2 0 :=
      Finset.sum_nonneg (fun j _ => aggMF_nonneg a1 a2 0 _ ha1)
    have hdenpos : 0 < fuzzyDen a1 a2 0 := lt_of_le_of_ne hden0 (Ne.symm hden)
    have hge := fuzzy_centroid_ge a1 a2 ha1 ha2
    have hscore : (50:ℚ) ≤ fuzzyNum a1 a2 0 / fuzzyDen a1 a2 0 :=
      (le_div_iff hdenpos).mpr (by linarith)
    simp only [evaluate_irrigation_need_from]
    simpa [ge_iff_le, decide_eq_true_eq] using hscore

/-! Hybrid decision engine (app/decision_engine/hybrid_engine.py,
    class HybridEngine). -/

/-- Weight normalization performed by the HybridEngine constructor: when the
weights have positive sum they are divided by it, otherwise they are kept
unchanged. -/
def normalizeWeights (rule_weight fuzzy_weight : ℚ) : ℚ × ℚ :=
  if rule_weight + fuzzy_weight > 0 then
    (rule_weight / (rule_weight + fuzzy_weight),
      fuzzy_weight / (rule_weight + fuzzy_weight))
  else
    (rule_weight, fuzzy_weight)

/-- Decision dictionary produced by HybridEngine.should_irrigate. -/
structure HybridDecision where
  should_irrigate : Bool
  confidence : ℚ
  weighted_vote : ℚ
  rule_decision : Decision
  fuzzy_decision : FuzzyDecision
deriving DecidableEq

/-- Translation of HybridEngine.should_irrigate: the rule and fuzzy boolean
outputs become votes 1.0/0.0, are combined with the constructor-normalized
weights, and the final decision is weighted_vote greater than or equal to
0.5; confidence is the same weighted average of the two confidences. -/
def hybrid_should_irrigate (rule_weight fuzzy_weight : ℚ) (m : ℚ) (w : String) :
    HybridDecision :=
  let nw := normalizeWeights rule_weight fuzzy_weight
  let rd := rule_should_irrigate m w
  let fd := evaluate_irrigation_need m w
  let rule_vote : ℚ := if rd.should_irrigate then 1 else 0
  let fuzzy_vote : ℚ := if fd.should_irrigate then 1 else 0
  let weighted_vote := rule_vote * nw.1 + fuzzy_vote * nw.2
  { should_irrigate := decide (weighted_vote ≥ 1/2)
    confidence := rd.confidence * nw.1 + fd.confidence * nw.2
    weighted_vote := weighted_vote
    rule_decision := rd
    fuzzy_decision := fd }

/-- Claim C10.  For nonnegative constructor weights whose normalized fuzzy
weight is at least 0.5 (in particular the defaults rule 0.4 / fuzzy 0.6),
HybridEngine.should_irrigate returns the same boolean as
FuzzyEngine.evaluate_irrigation_need for every moisture value and weather
condition: when the fuzzy engine votes yes the weighted vote already reaches
0.5, and when it votes no the rule engine also votes no (clear weather with
moisture below the threshold forces a fuzzy score of at least 50), so the
weighted vote is 0. -/
theorem hybrid_follows_fuzzy (rule_weight fuzzy_weight m : ℚ) (w : String)
    (hrw : 0 ≤ rule_weight) (hfw : 0 ≤ fuzzy_weight)
    (hnorm : 1/2 ≤ (normalizeWeights rule_weight fuzzy_weight).2) :
    (hybrid_should_irrigate rule_weight fuzzy_weight m w).should_irrigate =
      (evaluate_irrigation_need m w).should_irrigate := by
  have hsum : 0 < rule_weight + fuzzy_weight := by
    by_contra hns
    have : ¬(rule_weight + fuzzy_weight > 0) := hns
    rw [normalizeWeights, if_neg this] at hnorm
    have : fuzzy_weight ≤ 0 := by linarith [not_lt.mp hns, hrw]
    linarith
  have hnwdef : normalizeWeights rule_weight fuzzy_weight =
      (rule_weight / (rule_weight + fuzzy_weight),
        fuzzy_weight / (rule_weight + fuzzy_weight)) := by
    rw [normalizeWeights, if_pos hsum]
  set rw1 := rule_weight / (rule_weight + fuzzy_weight) with hrw1
  set fw1 := fuzzy_weight / (rule_weight + fuzzy_weight) with hfw1
  have hrw1n : 0 ≤ rw1 := div_nonneg hrw hsum.le
  have hfw1' : 1/2 ≤ fw1 := by
    rw [hnwdef] at hnorm
    exact hnorm
  have hsum1 : rw1 + fw1 = 1 := by
    rw [hrw1, hfw1, div_add_div_same, div_self (ne_of_gt hsum)]
  have hveq : (hybrid_should_irrigate rule_weight fuzzy_weight m w).should_irrigate =
      decide ((if (rule_should_irrigate m w).should_irrigate then (1:ℚ) else 0) * rw1 +
        (if (evaluate_irrigation_need m w).should_irrigate then (1:ℚ) else 0) * fw1
          ≥ 1/2) := by
    simp only [hybrid_should_irrigate, hnwdef]
  rw [hveq]
  cases hfd : (evaluate_irrigation_need m w).should_irrigate with
  | true =>
    rw [decide_eq_true_eq, if_pos rfl]
    by_cases h : (rule_should_irrigate m w).should_irrigate = true
    · rw [if_pos h]
      linarith
    · rw [if_neg h]
      linarith
  | false =>
    have hrule : (rule_should_irrigate m w).should_irrigate = false := by
      by_contra hr
      have hr' : (rule_should_irrigate m w).should_irrigate = true := by
        cases hb : (rule_should_irrigate m w).should_irrigate
        · exact absurd hb hr
        · rfl
      obtain ⟨hw, hm⟩ := (rule_should_irrigate_true_iff m w).mp hr'
      rw [hw] at hfd
      rw [fuzzy_clear_true m hm] at hfd
      exact Bool.noConfusion hfd
    rw [hrule, decide_eq_false_iff_not]
    simp only [if_neg Bool.false_ne_true]
    intro hcon
    norm_num at hcon

/-- Witness for hybrid_follows_fuzzy at the default weights and a concrete
input. -/
theorem hybrid_follows_fuzzy_witness :
    ((0:ℚ) ≤ 2/5 ∧ (0:ℚ) ≤ 3/5 ∧
      1/2 ≤ (normalizeWeights (2/5) (3/5)).2) ∧
    (hybrid_should_irrigate (2/5) (3/5) 30 "clear").should_irrigate =
      (evaluate_irrigation_need 30 "clear").should_irrigate := by
  have h1 : (0:ℚ) ≤ 2/5 := by norm_num
  have h2 : (0:ℚ) ≤ 3/5 := by norm_num
  have h3 : (1:ℚ)/2 ≤ (normalizeWeights (2/5) (3/5)).2 := by
    norm_num [normalizeWeights]
  exact ⟨⟨h1, h2, h3⟩, hybrid_follows_fuzzy (2/5) (3/5) 30 "clear" h1 h2 h3⟩

/-! Cycle controllers (app/controllers/irrigation_controller.py and
    app/controllers/fertigation_controller.py).  Controller methods are
    modelled as functions of an explicit state and an environment record
    describing the behaviour of each collaborator call; every actuator or
    log action is recorded, in program order, in an event trace. -/

/-- Operational log status values (app/models/operational_log.py). -/
inductive OpStatus
  | started
  | in_progress
  | completed
  | stopped
  | failed
  | skipped
deriving DecidableEq

/-- Outcome of one HydraulicValveController.open_zone call with
close_others=True: ok (close_all_valves then open_valve both succeeded,
returns True), failEarly (close_all_valves raised, caught, returns False),
failLate (open_valve raised after the valves were closed, caught, returns
False). -/
inductive OpenOutcome
  | ok
  | failEarly
  | failLate
deriving DecidableEq

/-- Actuator and log actions, recorded at method-invocation granularity in
program order. -/
inductive Ev
  | openZone (z : ℤ) (outcome : OpenOutcome)
  | closeZone (z : ℤ)
  | closeAllZones
  | pumpStart (target : ℚ) (ok : Bool)
  | pumpStop
  | tankCloseAll
  | logOp (z : Option ℤ) (st : OpStatus)
  | logSys
deriving DecidableEq

/-- Pump plant state implied by a trace: a successful pump start turns the
pump on, a pump stop turns it off. -/
def pumpRunningAfter (init : Bool) (tr : List Ev) : Bool :=
  tr.foldl (fun b e =>
    match e with
    | .pumpStart _ true => true
    | .pumpStop => false
    | _ => b) init

/-- Valve plant state implied by a trace: open_zone with close_others leaves
exactly the target open on success and everything closed when the open step
itself raised; close actions remove zones. -/
def openZonesAfter (init : List ℤ) (tr : List Ev) : List ℤ :=
  tr.foldl (fun zs e =>
    match e with
    | .openZone z .ok => [z]
    | .openZone _ .failLate => []
    | .openZone _ .failEarly => zs
    | .closeZone z => zs.erase z
    | .closeAllZones => []
    | _ => zs) init

/-- CycleState owned by each cycle controller: is_running, current_zone and
start_time. -/
structure IrrState where
  is_running : Bool
  current_zone : Option ℤ
  start_time : Option ℚ
deriving DecidableEq

/-- The CycleState invariant stated by the spec: current_zone is set exactly
when a cycle is running. -/
def CycleInv (s : IrrState) : Prop :=
  (s.current_zone ≠ none) ↔ (s.is_running = true)

/-- Zone configuration consumed by start_irrigation and the cycle. -/
structure ZoneConfig where
  altitude : ℚ
  slope : ℚ
  base_pressure : ℚ
deriving DecidableEq

/-- Result dictionary of PressureCalculator.calculate_required_pressure. -/
structure PressureCalcResult where
  base_pressure_kpa : ℚ
  elevation_head_kpa : ℚ
  slope_loss_kpa : ℚ
  total_required_pressure_kpa : ℚ
  altitude_difference_m : ℚ
  zone_slope_degrees : ℚ
deriving DecidableEq

/-- Translation of PressureCalculator.calculate_required_pressure. -/
def calculate_required_pressure (reference_altitude_m zone_altitude_m
    zone_slope_degrees base_pressure_kpa : ℚ) : PressureCalcResult :=
  let altitude_difference_m := zone_altitude_m - reference_altitude_m
  let elevation_head_kpa :=
    WATER_DENSITY_KG_PER_M3 * GRAVITY_M_PER_S2 * altitude_difference_m / 1000
  let slope_loss_kpa := ratAbs zone_slope_degrees * PRESSURE_LOSS_PER_DEGREE_SLOPE_KPA
  { base_pressure_kpa := base_pressure_kpa
    elevation_head_kpa := elevation_head_kpa
    slope_loss_kpa := slope_loss_kpa
    total_required_pressure_kpa := base_pressure_kpa + elevation_head_kpa + slope_loss_kpa
    altitude_difference_m := altitude_difference_m
    zone_slope_degrees := zone_slope_degrees }

/-- Collaborator behaviour for one iteration of the irrigation monitoring
loop.  stopRequested models another thread having cleared is_running before
this iteration re-reads it; timedOut models the MAX_OPERATION_DURATION_SEC
comparison; pressureRead is the system pressure sensor read (none = it
raised; either way the exception is swallowed and only the value passed on
to maintain_pressure changes, which the loop ignores); maintainRaises
models a pump-interface exception escaping maintain_pressure (the one
unguarded call in the loop body); moistureDue models the
MOISTURE_CHECK_INTERVAL_SEC comparison and moistureRead the soil sensor
read (none = it raised; caught and logged). -/
structure IterEnv where
  stopRequested : Bool
  timedOut : Bool
  pressureRead : Option ℚ
  maintainRaises : Bool
  moistureDue : Bool
  moistureRead : Option ℚ
deriving DecidableEq

/-- Collaborator behaviour for _stop_irrigation: whether
pump_interface.stop() raises inside stop_pressure_control (the only
unguarded call; the best-effort moisture and weather reads and the log
write swallow their own exceptions and only affect log payloads). -/
structure StopEnv where
  pumpStopRaises : Bool
deriving DecidableEq

/-- Full collaborator behaviour for one _irrigation_cycle run. -/
structure CycleEnv where
  openOutcome : OpenOutcome
  pumpStartRaises : Bool
  iters : List IterEnv
  stopEnv : StopEnv
deriving DecidableEq

/-- Result of the shared cleanup routine: whether it raised (raised = true
means the exception propagates to the caller with the state unchanged), the
controller state afterwards, and the actions performed. -/
structure StopCleanupResult where
  raised : Bool
  state : IrrState
  trace : List Ev
deriving DecidableEq

/-- Translation of IrrigationController._stop_irrigation: stop pump
pressure control, close the zone valve (fail-soft), best-effort end
moisture and weather reads (they only affect the log payload), write the
COMPLETED operational log, clear is_running and current_zone.  A raise from
the unguarded pump stop propagates before any state is cleared. -/
def stop_irrigation_cleanup (z : ℤ) (env : StopEnv) (s : IrrState) :
    StopCleanupResult :=
  if env.pumpStopRaises then
    ⟨true, s, [.pumpStop]⟩
  else
    ⟨false,
      { is_running := false, current_zone := none, start_time := s.start_time },
      [.pumpStop, .closeZone z, .logOp (some z) .completed]⟩

/-- How the monitoring loop of _irrigation_cycle ended. -/
inductive LoopExit
  | flagCleared
  | timeout
  | moisture
  | raised
  | fuelOut
deriving DecidableEq

/-- Result of the monitoring loop: how it ended, the controller state at
exit, and the actions performed. -/
structure LoopResult where
  exit : LoopExit
  state : IrrState
  trace : List Ev
deriving DecidableEq

/-- Translation of the while-loop of _irrigation_cycle, one IterEnv per
iteration (fuelOut marks the modelling horizon running out mid-loop).  The
iteration order follows the source: re-read is_running, timeout check and
break, best-effort pressure read plus maintain_pressure (an escaping pump
exception aborts to the handler), periodic moisture check with a break once
the reading reaches ADEQUATE_SOIL_MOISTURE_PERCENT, sleep. -/
def irrigationLoop : List IterEnv → IrrState → LoopResult
  | [], s => ⟨.fuelOut, s, []⟩
  | it :: rest, s =>
    let s1 := if it.stopRequested then { s with is_running := false } else s
    if s1.is_running = false then ⟨.flagCleared, s1, []⟩
    else if it.timedOut then ⟨.timeout, s1, [.logSys]⟩
    else if it.maintainRaises then ⟨.raised, s1, []⟩
    else if it.moistureDue then
      match it.moistureRead with
      | none =>
        let r := irrigationLoop rest s1
        ⟨r.exit, r.state, .logSys :: r.trace⟩
      | some v =>
        if v ≥ ADEQUATE_SOIL_MOISTURE_PERCENT then ⟨.moisture, s1, [.logSys]⟩
        else irrigationLoop rest s1
    else irrigationLoop rest s1

/-- Result of a full _irrigation_cycle run.  completed is false only when
the modelling horizon ran out mid-loop; the Python thread body itself never
lets an exception escape (its top-level handler catches everything). -/
structure CycleResult where
  completed : Bool
  state : IrrState
  trace : List Ev
deriving DecidableEq

/-- State mutation performed by the top-level exception handler of
_irrigation_cycle: it clears the running flags but touches no actuator. -/
def handlerState (s : IrrState) : IrrState :=
  { s with is_running := false, current_zone := none }

/-- Actions performed by the top-level exception handler of
_irrigation_cycle: an error system log and a FAILED operational log, and
nothing else. -/
def handlerTrace (z : ℤ) : List Ev := [.logSys, .logOp (some z) .failed]

/-- Translation of IrrigationController._irrigation_cycle: log STARTED,
compute the target pressure, open the zone valve closing others (a False
return raises), start pump pressure control, log IN_PROGRESS, run the
monitoring loop, then run the shared cleanup; any exception lands in the
top-level handler. -/
def irrigation_cycle (reference_altitude_m : ℚ) (z : ℤ) (cfg : ZoneConfig)
    (env : CycleEnv) (s : IrrState) : CycleResult :=
  let target := (calculate_required_pressure reference_altitude_m cfg.altitude
    cfg.slope cfg.base_pressure).total_required_pressure_kpa
  match env.openOutcome with
  | .failEarly =>
    ⟨true, handlerState s,
      .logOp (some z) .started :: .openZone z .failEarly :: handlerTrace z⟩
  | .failLate =>
    ⟨true, handlerState s,
      .logOp (some z) .started :: .openZone z .failLate :: handlerTrace z⟩
  | .ok =>
    if env.pumpStartRaises then
      ⟨true, handlerState s,
        .logOp (some z) .started :: .openZone z .ok ::
          .pumpStart target false :: handlerTrace z⟩
    else
      let lr := irrigationLoop env.iters s
      let pre : List Ev := [.logOp (some z) .started, .openZone z .ok,
        .pumpStart target true, .logOp (some z) .in_progress]
      match lr.exit with
      | .raised => ⟨true, handlerState lr.state, pre ++ lr.trace ++ handlerTrace z⟩
      | .fuelOut => ⟨false, lr.state, pre ++ lr.trace⟩
      | _ =>
        let sc := stop_irrigation_cleanup z env.stopEnv lr.state
        if sc.raised then
          ⟨true, handlerState lr.state, pre ++ lr.trace ++ sc.trace ++ handlerTrace z⟩
        else
          ⟨true, sc.state, pre ++ lr.trace ++ sc.trace⟩

/-- Which return branch of start_irrigation produced the response
dictionary. -/
inductive StartTag
  | alreadyRunning
  | weatherReadFailed
  | weatherNotSuitable
  | noSensor
  | decisionSkip
  | started
deriving DecidableEq

/-- Outcome of a start_irrigation call: a returned dictionary with its
success flag and branch, or an uncaught exception propagating to the
caller. -/
inductive StartOutcome
  | ret (success : Bool) (tag : StartTag)
  | raised
deriving DecidableEq

/-- Collaborator behaviour for one start_irrigation call: the weather oracle
read (none = it raised; caught) and the soil moisture sensor read (none =
it raised; this call is unguarded in the source). -/
structure StartEnv where
  weatherRead : Option String
  moistureRead : Option ℚ
deriving DecidableEq

/-- Result of a start method: outcome, controller state after the call,
whether a background cycle thread was spawned, and the actions performed
synchronously. -/
structure StartResult where
  outcome : StartOutcome
  state : IrrState
  spawned : Bool
  trace : List Ev
deriving DecidableEq

/-- Translation of IrrigationController.start_irrigation.  sensorZones is
the key set of the soil_moisture_sensors dictionary; the weather condition
string is the condition field of the oracle reading; the zone_config
argument is only forwarded to the spawned cycle and does not influence this
method.  The guarded weather read returns an error dictionary on a raise,
while the soil moisture read is unguarded, so its exception propagates. -/
def start_irrigation (sensorZones : List ℤ) (rule_weight fuzzy_weight : ℚ)
    (z : ℤ) (now : ℚ) (env : StartEnv) (s : IrrState) : StartResult :=
  if s.is_running then
    ⟨.ret false .alreadyRunning, s, false, []⟩
  else
    match env.weatherRead with
    | none => ⟨.ret false .weatherReadFailed, s, false, [.logSys]⟩
    | some cond =>
      if cond ≠ "clear" then
        ⟨.ret false .weatherNotSuitable, s, false, [.logSys]⟩
      else if z ∉ sensorZones then
        ⟨.ret false .noSensor, s, false, [.logSys]⟩
      else
        match env.moistureRead with
        | none => ⟨.raised, s, false, [.logSys]⟩
        | some moisture =>
          if (hybrid_should_irrigate rule_weight fuzzy_weight moisture
              cond).should_irrigate = false then
            ⟨.ret false .decisionSkip, s, false,
              [.logSys, .logOp (some z) .skipped]⟩
          else
            ⟨.ret true .started,
              { is_running := true, current_zone := some z, start_time := some now },
              true, [.logSys]⟩

/-- Result of a public stop method: the success flag of the returned
dictionary, whether an exception propagated instead of a return, the state
after the call and the actions performed. -/
structure PubStopResult where
  success : Bool
  raised : Bool
  state : IrrState
  trace : List Ev
deriving DecidableEq

/-- Translation of IrrigationController.stop_irrigation.  The cleanup guard
in the source is the Python truthiness test on self.current_zone, which is
False both for None and for the integer zone id 0. -/
def stop_irrigation (env : StopEnv) (s : IrrState) : PubStopResult :=
  if s.is_running = false then
    ⟨false, false, s, []⟩
  else
    let s1 : IrrState := { s with is_running := false }
    match s1.current_zone with
    | none => ⟨true, false, s1, []⟩
    | some z =>
      if z = 0 then ⟨true, false, s1, []⟩
      else
        let c := stop_irrigation_cleanup z env s1
        if c.raised then ⟨true, true, c.state, c.trace⟩
        else
          ⟨true, false, c.state,
            c.trace ++ [.logOp c.state.current_zone .stopped]⟩

/-- Collaborator behaviour for _stop_fertigation: whether
tank_valve_controller.close_all() raises (the pump stops around it are each
wrapped in try/except and swallowed, the zone valve close is fail-soft and
the tank level read is guarded). -/
structure FertStopEnv where
  tankCloseRaises : Bool
deriving DecidableEq

/-- Translation of FertigationController._stop_fertigation: stop the
fertilizer pump then the irrigation pump when the respective controllers
are configured (exceptions swallowed), close all tank valves (unguarded),
close the zone valve (fail-soft), best-effort tank level read, log
COMPLETED, clear running state.  In main.py the controller is wired with
both pump controllers present. -/
def stop_fertigation_cleanup (hasFert hasIrr : Bool) (z : ℤ)
    (env : FertStopEnv) (s : IrrState) : StopCleanupResult :=
  let pumps : List Ev :=
    (if hasFert then [Ev.pumpStop] else []) ++
      (if hasIrr then [Ev.pumpStop] else [])
  if env.tankCloseRaises then
    ⟨true, s, pumps ++ [.tankCloseAll]⟩
  else
    ⟨false,
      { is_running := false, current_zone := none, start_time := s.start_time },
      pumps ++ [.tankCloseAll, .closeZone z, .logOp (some z) .completed]⟩

/-- Collaborator behaviour for start_fertigation: the optional weather read
(none = it raised; caught with a warning and fertigation proceeds). -/
structure FertStartEnv where
  weatherRead : Option String
deriving DecidableEq

/-- Translation of FertigationController.start_fertigation: reject when
already running; when check_weather is enabled and a weather reader is
configured, reject on a rainy condition but proceed on a failed read;
otherwise set the running state and spawn the cycle thread. -/
def start_fertigation (check_weather hasWeatherReader : Bool) (z : ℤ)
    (now : ℚ) (env : FertStartEnv) (s : IrrState) : StartResult :=
  if s.is_running then
    ⟨.ret false .alreadyRunning, s, false, []⟩
  else
    let proceed : StartResult :=
      ⟨.ret true .started,
        { is_running := true, current_zone := some z, start_time := some now },
        true, []⟩
    if check_weather && hasWeatherReader then
      match env.weatherRead with
      | some cond =>
        if cond = "rainy" then
          ⟨.ret false .weatherNotSuitable, s, false, []⟩
        else proceed
      | none => ⟨proceed.outcome, proceed.state, proceed.spawned, .logSys :: proceed.trace⟩
    else proceed

/-- Translation of FertigationController.stop_fertigation, with the same
truthiness guard on current_zone as stop_irrigation. -/
def stop_fertigation (hasFert hasIrr : Bool) (env : FertStopEnv)
    (s : IrrState) : PubStopResult :=
  if s.is_running = false then
    ⟨false, false, s, []⟩
  else
    let s1 : IrrState := { s with is_running := false }
    match s1.current_zone with
    | none => ⟨true, false, s1, []⟩
    | some z =>
      if z = 0 then ⟨true, false, s1, []⟩
      else
        let c := stop_fertigation_cleanup hasFert hasIrr z env s1
        if c.raised then ⟨true, true, c.state, c.trace⟩
        else
          ⟨true, false, c.state,
            c.trace ++ [.logOp c.state.current_zone .stopped]⟩

/-! Ordering of actuator actions in a trace. -/

/-- Every event satisfying q is preceded, at a strictly smaller index, by an
event satisfying p. -/
def eventPrecedes (p q : Ev → Prop) (tr : List Ev) : Prop :=
  ∀ i e, tr.get? i = some e → q e → ∃ j e2, j < i ∧ tr.get? j = some e2 ∧ p e2

lemma eventPrecedes_noq (p q : Ev → Prop) (tr : List Ev)
    (h : ∀ e ∈ tr, ¬ q e) : eventPrecedes p q tr := by
  intro i e hget hq
  exact absurd hq (h e (List.get?_mem hget))

lemma eventPrecedes_cons_not (p q : Ev → Prop) (e : Ev) (tr : List Ev)
    (hq : ¬ q e) (h : eventPrecedes p q tr) : eventPrecedes p q (e :: tr) := by
  intro i e1 hget hq1
  cases i with
  | zero =>
    rw [List.get?_cons_zero] at hget
    cases hget
    exact absurd hq1 hq
  | succ i =>
    rw [List.get?_cons_succ] at hget
    obtain ⟨j, e2, hj, hg, hp⟩ := h i e1 hget hq1
    exact ⟨j + 1, e2, by omega, by rw [List.get?_cons_succ]; exact hg, hp⟩

lemma eventPrecedes_cons_p (p q : Ev → Prop) (e : Ev) (tr : List Ev)
    (hp : p e) (hq : ¬ q e) : eventPrecedes p q (e :: tr) := by
  intro i e1 hget hq1
  cases i with
  | zero =>
    rw [List.get?_cons_zero] at hget
    cases hget
    exact absurd hq1 hq
  | succ i =>
    exact ⟨0, e, Nat.succ_pos i, rfl, hp⟩

lemma eventPrecedes_append_noq (p q : Ev → Prop) (t1 t2 : List Ev)
    (h1 : ∀ e ∈ t1, ¬ q e) (h2 : eventPrecedes p q t2) :
    eventPrecedes p q (t1 ++ t2) := by
  induction t1 with
  | nil => simpa using h2
  | cons e t ih =>
    have hstep := eventPrecedes_cons_not p q e (t ++ t2)
      (h1 e (by simp)) (ih (fun e2 he2 => h1 e2 (by simp [he2])))
    simpa using hstep

/-- The event is an open_zone invocation on zone z. -/
def isOpenZone (z : ℤ) : Ev → Prop := fun e =>
  match e with
  | .openZone z2 _ => z2 = z
  | _ => False

/-- The event is a start_pressure_control invocation. -/
def isPumpStart : Ev → Prop := fun e =>
  match e with
  | .pumpStart _ _ => True
  | _ => False

/-- The event is a stop_pressure_control invocation. -/
def isPumpStop : Ev → Prop := fun e =>
  match e with
  | .pumpStop => True
  | _ => False

/-- The event closes a valve: a zone valve close or a close of all tank
valves. -/
def isValveClose : Ev → Prop := fun e =>
  match e with
  | .closeZone _ => True
  | .tankCloseAll => True
  | _ => False

lemma irrigationLoop_trace_logs (iters : List IterEnv) :
    ∀ s : IrrState, ∀ e ∈ (irrigationLoop iters s).trace, e = Ev.logSys := by
  induction iters with
  | nil =>
    intro s e he
    simp [irrigationLoop] at he
  | cons it rest ih =>
    intro s e he
    simp only [irrigationLoop] at he
    repeat' split at he
    all_goals
      first
        | exact ih _ e he
        | (simp at he <;>
            first
              | exact he
              | (rcases he with he | he <;>
                  first
                    | exact he
                    | exact ih _ e he))

lemma ep_head2 (p q : Ev → Prop) (a b : Ev) (t : List Ev)
    (hqa : ¬ q a) (hpb : p b) (hqb : ¬ q b) :
    eventPrecedes p q (a :: b :: t) :=
  eventPrecedes_cons_not p q a (b :: t) hqa (eventPrecedes_cons_p p q b t hpb hqb)

lemma cycle_trace_head (r : ℚ) (z : ℤ) (cfg : ZoneConfig) (env : CycleEnv)
    (s : IrrState) :
    ∃ t, (irrigation_cycle r z cfg env s).trace =
      Ev.logOp (some z) .started :: Ev.openZone z env.openOutcome :: t := by
  unfold irrigation_cycle
  cases ho : env.openOutcome with
  | failEarly => exact ⟨_, rfl⟩
  | failLate => exact ⟨_, rfl⟩
  | ok =>
    dsimp only
    by_cases hp : env.pumpStartRaises = true
    · rw [if_pos hp]
      exact ⟨_, rfl⟩
    · rw [if_neg hp]
      cases hexit : (irrigationLoop env.iters s).exit <;>
        first
          | exact ⟨_, rfl⟩
          | (by_cases hsc : (stop_irrigation_cleanup z env.stopEnv
                (irrigationLoop env.iters s).state).raised = true <;>
              [rw [if_pos hsc]; rw [if_neg hsc]] <;>
              exact ⟨_, rfl⟩)

lemma stop_cleanup_raised (z : ℤ) (env : StopEnv) (s : IrrState) :
    (stop_irrigation_cleanup z env s).raised = env.pumpStopRaises := by
  unfold stop_irrigation_cleanup
  by_cases h : env.pumpStopRaises = true
  · rw [if_pos h]
    exact h.symm
  · rw [if_neg h]
    simp only [Bool.not_eq_true] at h
    exact h.symm

lemma valveclose_split_raised (A H : List Ev) (hA : ∀ e ∈ A, ¬ isValveClose e) :
    ∃ t1 t2, (A ++ [Ev.pumpStop]) ++ H = t1 ++ (Ev.pumpStop :: t2) ∧
      ∀ e ∈ t1, ¬ isValveClose e :=
  ⟨A, H, by simp, hA⟩

lemma valveclose_split_ok (A rest : List Ev) (hA : ∀ e ∈ A, ¬ isValveClose e) :
    ∃ t1 t2, A ++ (Ev.pumpStop :: rest) = t1 ++ (Ev.pumpStop :: t2) ∧
      ∀ e ∈ t1, ¬ isValveClose e :=
  ⟨A, rest, rfl, hA⟩

/-- The irrigation cycle trace either contains no valve-close action at all,
or splits as a part without valve closes followed by a pump stop and a
remainder; the split point is the shared cleanup routine. -/
lemma cycle_trace_valveclose_cases (r : ℚ) (z : ℤ) (cfg : ZoneConfig)
    (env : CycleEnv) (s : IrrState) :
    (∀ e ∈ (irrigation_cycle r z cfg env s).trace, ¬ isValveClose e) ∨
    (∃ t1 t2, (irrigation_cycle r z cfg env s).trace = t1 ++ (Ev.pumpStop :: t2) ∧
      ∀ e ∈ t1, ¬ isValveClose e) := by
  have hpre : ∀ e ∈ ([Ev.logOp (some z) .started, Ev.openZone z .ok,
      Ev.pumpStart ((calculate_required_pressure r cfg.altitude cfg.slope
        cfg.base_pressure).total_required_pressure_kpa) true,
      Ev.logOp (some z) .in_progress] ++
        (irrigationLoop env.iters s).trace), ¬ isValveClose e := by
    intro e he
    rw [List.mem_append] at he
    rcases he with he | he
    · simp at he
      rcases he with h | h | h | h <;> subst h <;> simp [isValveClose]
    · rw [irrigationLoop_trace_logs env.iters s e he]
      simp [isValveClose]
  unfold irrigation_cycle
  cases ho : env.openOutcome with
  | failEarly =>
    left
    intro e he
    simp [handlerTrace] at he
    rcases he with h | h | h | h <;> subst h <;> simp [isValveClose]
  | failLate =>
    left
    intro e he
    simp [handlerTrace] at he
    rcases he with h | h | h | h <;> subst h <;> simp [isValveClose]
  | ok =>
    dsimp only
    by_cases hp : env.pumpStartRaises = true
    · rw [if_pos hp]
      left
      intro e he
      simp [handlerTrace] at he
      rcases he with h | h | h | h | h <;> subst h <;> simp [isValveClose]
    · rw [if_neg hp]
      cases hexit : (irrigationLoop env.iters s).exit with
      | raised =>
        left
        intro e he
        rw [List.mem_append] at he
        rcases he with he | he
        · exact hpre e he
        · simp [handlerTrace] at he
          rcases he with h | h <;> subst h <;> simp [isValveClose]
      | fuelOut =>
        left
        intro e he
        exact hpre e he
      | flagCleared =>
        right
        by_cases hpr : env.stopEnv.pumpStopRaises = true
        · have hsc : (stop_irrigation_cleanup z env.stopEnv
              (irrigationLoop env.iters s).state).raised = true := by
            rw [stop_cleanup_raised]
            exact hpr
          rw [if_pos hsc]
          unfold stop_irrigation_cleanup
          rw [if_pos hpr]
          exact valveclose_split_raised _ _ hpre
        · have hsc : ¬ (stop_irrigation_cleanup z env.stopEnv
              (irrigationLoop env.iters s).state).raised = true := by
            rw [stop_cleanup_raised]
            exact hpr
          rw [if_neg hsc]
          unfold stop_irrigation_cleanup
          rw [if_neg hpr]
          exact valveclose_split_ok _ _ hpre
      | timeout =>
        right
        by_cases hpr : env.stopEnv.pumpStopRaises = true
        · have hsc : (stop_irrigation_cleanup z env.stopEnv
              (irrigationLoop env.iters s).state).raised = true := by
            rw [stop_cleanup_raised]
            exact hpr
          rw [if_pos hsc]
          unfold stop_irrigation_cleanup
          rw [if_pos hpr]
          exact valveclose_split_raised _ _ hpre
        · have hsc : ¬ (stop_irrigation_cleanup z env.stopEnv
              (irrigationLoop env.iters s).state).raised = true := by
            rw [stop_cleanup_raised]
            exact hpr
          rw [if_neg hsc]
          unfold stop_irrigation_cleanup
          rw [if_neg hpr]
          exact valveclose_split_ok _ _ hpre
      | moisture =>
        right
        by_cases hpr : env.stopEnv.pumpStopRaises = true
        · have hsc : (stop_irrigation_cleanup z env.stopEnv
              (irrigationLoop env.iters s).state).raised = true := by
            rw [stop_cleanup_raised]
            exact hpr
          rw [if_pos hsc]
          unfold stop_irrigation_cleanup
          rw [if_pos hpr]
          exact valveclose_split_raised _ _ hpre
        · have hsc : ¬ (stop_irrigation_cleanup z env.stopEnv
              (irrigationLoop env.iters s).state).raised = true := by
            rw [stop_cleanup_raised]
            exact hpr
          rw [if_neg hsc]
          unfold stop_irrigation_cleanup
          rw [if_neg hpr]
          exact valveclose_split_ok _ _ hpre

lemma cycle_open_before_pumpstart (r : ℚ) (z : ℤ) (cfg : ZoneConfig)
    (env : CycleEnv) (s : IrrState) :
    eventPrecedes (isOpenZone z) isPumpStart
      (irrigation_cycle r z cfg env s).trace := by
  obtain ⟨t, ht⟩ := cycle_trace_head r z cfg env s
  rw [ht]
  exact ep_head2 _ _ _ _ _ (by simp [isPumpStart])
    (by simp [isOpenZone]) (by simp [isPumpStart])

lemma cycle_pumpstop_before_valveclose (r : ℚ) (z : ℤ) (cfg : ZoneConfig)
    (env : CycleEnv) (s : IrrState) :
    eventPrecedes isPumpStop isValveClose
      (irrigation_cycle r z cfg env s).trace := by
  rcases cycle_trace_valveclose_cases r z cfg env s with h | ⟨t1, t2, heq, h1⟩
  · exact eventPrecedes_noq _ _ _ h
  · rw [heq]
    exact eventPrecedes_append_noq _ _ _ _ h1
      (eventPrecedes_cons_p _ _ _ _ (by simp [isPumpStop]) (by simp [isValveClose]))

lemma stop_irrigation_trace_cases (env : StopEnv) (s : IrrState) :
    (stop_irrigation env s).trace = [] ∨
    ∃ t, (stop_irrigation env s).trace = Ev.pumpStop :: t := by
  unfold stop_irrigation stop_irrigation_cleanup
  by_cases hr : s.is_running = false
  · rw [if_pos hr]
    left
    rfl
  · rw [if_neg hr]
    dsimp only
    cases s.current_zone with
    | none => left; rfl
    | some z =>
      dsimp only
      by_cases h0 : z = 0
      · rw [if_pos h0]
        left
        rfl
      · rw [if_neg h0]
        by_cases hpr : env.pumpStopRaises = true
        · rw [if_pos hpr]
          right
          exact ⟨_, rfl⟩
        · rw [if_neg hpr]
          right
          exact ⟨_, rfl⟩

lemma pubstop_pumpstop_before_valveclose (env : StopEnv) (s : IrrState) :
    eventPrecedes isPumpStop isValveClose (stop_irrigation env s).trace := by
  rcases stop_irrigation_trace_cases env s with h | ⟨t, h⟩ <;> rw [h]
  · exact eventPrecedes_noq _ _ _ (by intro e he; simp at he)
  · exact eventPrecedes_cons_p _ _ _ _ (by simp [isPumpStop]) (by simp [isValveClose])

lemma stop_fertigation_trace_cases (hasIrr : Bool) (env : FertStopEnv)
    (s : IrrState) :
    (stop_fertigation true hasIrr env s).trace = [] ∨
    ∃ t, (stop_fertigation true hasIrr env s).trace = Ev.pumpStop :: t := by
  unfold stop_fertigation stop_fertigation_cleanup
  by_cases hr : s.is_running = false
  · rw [if_pos hr]
    left
    rfl
  · rw [if_neg hr]
    dsimp only
    cases s.current_zone with
    | none => left; rfl
    | some z =>
      dsimp only
      by_cases h0 : z = 0
      · rw [if_pos h0]
        left
        rfl
      · rw [if_neg h0]
        by_cases hpr : env.tankCloseRaises = true
        · rw [if_pos hpr]
          right
          exact ⟨_, rfl⟩
        · rw [if_neg hpr]
          right
          exact ⟨_, rfl⟩

lemma fertstop_pumpstop_before_valveclose (hasIrr : Bool) (env : FertStopEnv)
    (s : IrrState) :
    eventPrecedes isPumpStop isValveClose
      (stop_fertigation true hasIrr env s).trace := by
  rcases stop_fertigation_trace_cases hasIrr env s with h | ⟨t, h⟩ <;> rw [h]
  · exact eventPrecedes_noq _ _ _ (by intro e he; simp at he)
  · exact eventPrecedes_cons_p _ _ _ _ (by simp [isPumpStop]) (by simp [isValveClose])

/-- Claim C5.  Safety-critical actuator ordering: in every irrigation cycle
run, the valve-open action on the target zone precedes any pump-start
action, and any valve-close action (zone or tank) is preceded by a
pump-stop action; the same pump-stop-before-valve-close ordering holds for
the synchronous cleanup run by stop_irrigation and by stop_fertigation (as
wired in main.py, with the fertilizer pump controller present), on every
execution path: normal completion, moisture-triggered stop, timeout,
explicit stop and the exception paths. -/
theorem cycle_actuator_ordering (r : ℚ) (z : ℤ) (cfg : ZoneConfig)
    (env : CycleEnv) (s : IrrState) (envStop : StopEnv) (s2 : IrrState)
    (hasIrr : Bool) (envF : FertStopEnv) (s3 : IrrState) :
    (eventPrecedes (isOpenZone z) isPumpStart
        (irrigation_cycle r z cfg env s).trace ∧
      eventPrecedes isPumpStop isValveClose
        (irrigation_cycle r z cfg env s).trace) ∧
    eventPrecedes isPumpStop isValveClose (stop_irrigation envStop s2).trace ∧
    eventPrecedes isPumpStop isValveClose
      (stop_fertigation true hasIrr envF s3).trace :=
  ⟨⟨cycle_open_before_pumpstart r z cfg env s,
      cycle_pumpstop_before_valveclose r z cfg env s⟩,
    pubstop_pumpstop_before_valveclose envStop s2,
    fertstop_pumpstop_before_valveclose hasIrr envF s3⟩

/-- With the default constructor weights 0.4/0.6 the hybrid engine decides
to irrigate whenever the weather is clear and moisture is below the
adequate threshold: both engines vote yes, so the weighted vote is 1. -/
lemma hybrid_default_true (m : ℚ) (hm : m < ADEQUATE_SOIL_MOISTURE_PERCENT) :
    (hybrid_should_irrigate (2/5) (3/5) m "clear").should_irrigate = true := by
  have hf := fuzzy_clear_true m hm
  have hr : (rule_should_irrigate m "clear").should_irrigate = true :=
    (rule_should_irrigate_true_iff m "clear").mpr ⟨rfl, hm⟩
  have hnw : normalizeWeights (2/5) (3/5) = (2/5, 3/5) := by
    norm_num [normalizeWeights]
  simp only [hybrid_should_irrigate, hnw, hf, hr, if_true]
  norm_num

/-- A fully successful start_irrigation call on an idle controller with
clear weather and moisture 30 spawns the cycle thread and records the
target zone. -/
lemma start_irrigation_concrete (z : ℤ) :
    start_irrigation [z] (2/5) (3/5) z 5 ⟨some "clear", some 30⟩
        ⟨false, none, none⟩ =
      ⟨.ret true .started, ⟨true, some z, some 5⟩, true, [.logSys]⟩ := by
  have hdec := hybrid_default_true 30 (by norm_num [ADEQUATE_SOIL_MOISTURE_PERCENT])
  unfold start_irrigation
  norm_num [hdec]

lemma start_irrigation_spawned_state (Z : List ℤ) (rwt fwt : ℚ) (z : ℤ)
    (now : ℚ) (env : StartEnv) (s : IrrState)
    (h : (start_irrigation Z rwt fwt z now env s).spawned = true) :
    (start_irrigation Z rwt fwt z now env s).state = ⟨true, some z, some now⟩ := by
  unfold start_irrigation at h ⊢
  by_cases h1 : s.is_running = true
  · rw [if_pos h1] at h
    exact absurd h (by simp)
  · rw [if_neg h1] at h ⊢
    revert h
    cases hw : env.weatherRead with
    | none =>
      intro h
      exact absurd h (by simp)
    | some cond =>
      intro h
      dsimp only at h ⊢
      by_cases h2 : cond ≠ "clear"
      · rw [if_pos h2] at h
        exact absurd h (by simp)
      · rw [if_neg h2] at h ⊢
        by_cases h3 : z ∉ Z
        · rw [if_pos h3] at h
          exact absurd h (by simp)
        · rw [if_neg h3] at h ⊢
          revert h
          cases hm : env.moistureRead with
          | none =>
            intro h
            exact absurd h (by simp)
          | some moisture =>
            intro h
            dsimp only at h ⊢
            by_cases h4 : (hybrid_should_irrigate rwt fwt moisture
                cond).should_irrigate = false
            · rw [if_pos h4] at h
              exact absurd h (by simp)
            · rw [if_neg h4]

/-- Claim C7.  Calling start_irrigation while a cycle is already running
(any second call after a call that spawned a cycle thread, without an
intervening stop) returns the already-in-progress dictionary with success
false synchronously, spawns no thread and mutates no state: the state after
the second call is exactly the state after the first, whose current_zone is
the first call's zone. -/
theorem start_irrigation_already_running (Z Z2 : List ℤ)
    (rwt fwt rwt2 fwt2 : ℚ) (z z2 : ℤ) (now now2 : ℚ)
    (env env2 : StartEnv) (s : IrrState)
    (h : (start_irrigation Z rwt fwt z now env s).spawned = true) :
    start_irrigation Z2 rwt2 fwt2 z2 now2 env2
        (start_irrigation Z rwt fwt z now env s).state =
      ⟨.ret false .alreadyRunning,
        (start_irrigation Z rwt fwt z now env s).state, false, []⟩ ∧
    (start_irrigation Z rwt fwt z now env s).state.current_zone = some z := by
  have hstate := start_irrigation_spawned_state Z rwt fwt z now env s h
  rw [hstate]
  constructor
  · rfl
  · rfl

/-- Witness for start_irrigation_already_running at a concrete input. -/
theorem start_irrigation_already_running_witness :
    (start_irrigation [1] (2/5) (3/5) 1 5 ⟨some "clear", some 30⟩
        ⟨false, none, none⟩).spawned = true ∧
    (start_irrigation [1] (2/5) (3/5) 1 5 ⟨some "clear", some 30⟩
        ⟨false, none, none⟩).state.current_zone = some 1 := by
  have hs : (start_irrigation [1] (2/5) (3/5) 1 5 ⟨some "clear", some 30⟩
      ⟨false, none, none⟩).spawned = true := by
    rw [start_irrigation_concrete 1]
  exact ⟨hs, (start_irrigation_already_running [1] [1] (2/5) (3/5) (2/5) (3/5)
    1 2 5 6 ⟨some "clear", some 30⟩ ⟨some "clear", some 30⟩
    ⟨false, none, none⟩ hs).2⟩

/-- Claim C4 (counterexample).  The claim says start_irrigation returns a
success-false dictionary rather than propagating when the zone soil
moisture sensor read raises.  On an idle controller with clear weather, a
configured sensor for zone 1 and a raising moisture read, start_irrigation
propagates the exception to its caller (outcome raised) instead of
returning a dictionary. -/
theorem start_irrigation_raise_counterexample :
    (start_irrigation [1] (2/5) (3/5) 1 5 ⟨some "clear", none⟩
        ⟨false, none, none⟩).outcome = .raised := by
  unfold start_irrigation
  norm_num

/-- Claim C4 (amended).  The weather read of start_irrigation is guarded: a
raising weather oracle yields a returned dictionary with success false and
the weather_read_failed error, with no thread spawned and no state change.
The soil moisture read is not guarded: with clear weather and a configured
sensor for the zone, a raising moisture read propagates the exception out
of start_irrigation (it is only converted to a success-false HTTP 500
response at the API boundary), again with no thread spawned and no state
change. -/
theorem start_irrigation_error_paths (Z : List ℤ) (rwt fwt : ℚ) (z : ℤ)
    (now : ℚ) (s : IrrState) (hrun : s.is_running = false) :
    (∀ mo, start_irrigation Z rwt fwt z now ⟨none, mo⟩ s =
      ⟨.ret false .weatherReadFailed, s, false, [.logSys]⟩) ∧
    (z ∈ Z → start_irrigation Z rwt fwt z now ⟨some "clear", none⟩ s =
      ⟨.raised, s, false, [.logSys]⟩) := by
  constructor
  · intro mo
    unfold start_irrigation
    rw [if_neg (by simp [hrun])]
  · intro hz
    unfold start_irrigation
    rw [if_neg (by simp [hrun])]
    dsimp only
    rw [if_neg (by simp)]
    rw [if_neg (by simp [hz])]

/-- Witness for start_irrigation_error_paths at a concrete input. -/
theorem start_irrigation_error_paths_witness :
    ((⟨false, none, none⟩ : IrrState).is_running = false ∧ (1:ℤ) ∈ [(1:ℤ)]) ∧
    start_irrigation [1] (2/5) (3/5) 1 5 ⟨some "clear", none⟩
        ⟨false, none, none⟩ =
      ⟨.raised, ⟨false, none, none⟩, false, [.logSys]⟩ := by
  refine ⟨⟨rfl, by simp⟩, ?_⟩
  exact (start_irrigation_error_paths [1] (2/5) (3/5) 1 5
    ⟨false, none, none⟩ rfl).2 (by simp)

/-- Claim C1 (code divergence).  Run the cycle for zone 1 from a running
state where the valve open and pump start succeed and then, on the first
loop iteration, the pump interface raises inside maintain_pressure (the
system pressure sensor read itself raising is swallowed, so a raising
collaborator deeper in the loop is needed to reach the handler).  The
top-level handler of _irrigation_cycle catches the exception (nothing
propagates out of the thread), logs a FAILED operational record and clears
is_running and current_zone as the claim demands, but it performs no
actuator action: the trace contains no pump-stop and no valve-close after
the successful pump start and valve open, so the pump is still running and
the zone valve still open, contradicting the claimed forced safe state. -/
theorem cycle_exception_actuators_left_on :
    (irrigation_cycle 0 1 ⟨10, 5, 150⟩
        ⟨.ok, false, [⟨false, false, none, true, false, none⟩], ⟨false⟩⟩
        ⟨true, some 1, some 0⟩).completed = true ∧
    (irrigation_cycle 0 1 ⟨10, 5, 150⟩
        ⟨.ok, false, [⟨false, false, none, true, false, none⟩], ⟨false⟩⟩
        ⟨true, some 1, some 0⟩).state = ⟨false, none, some 0⟩ ∧
    Ev.logOp (some 1) .failed ∈
      (irrigation_cycle 0 1 ⟨10, 5, 150⟩
        ⟨.ok, false, [⟨false, false, none, true, false, none⟩], ⟨false⟩⟩
        ⟨true, some 1, some 0⟩).trace ∧
    pumpRunningAfter false
      (irrigation_cycle 0 1 ⟨10, 5, 150⟩
        ⟨.ok, false, [⟨false, false, none, true, false, none⟩], ⟨false⟩⟩
        ⟨true, some 1, some 0⟩).trace = true ∧
    openZonesAfter []
      (irrigation_cycle 0 1 ⟨10, 5, 150⟩
        ⟨.ok, false, [⟨false, false, none, true, false, none⟩], ⟨false⟩⟩
        ⟨true, some 1, some 0⟩).trace = [1] := by
  refine ⟨?_, ?_, ?_, ?_, ?_⟩ <;>
    norm_num [irrigation_cycle, irrigationLoop, handlerState, handlerTrace,
      pumpRunningAfter, openZonesAfter]

/-- Claim C6 (counterexample).  The claim states the CycleState invariant
for every zone id.  For zone id 0, a successful start_irrigation leaves the
controller running on zone 0; stop_irrigation then clears is_running but
its cleanup guard is the Python truthiness test on current_zone, which is
False for 0, so current_zone stays set: after the call is_running is False
while current_zone is not None, violating the invariant (until the cycle
thread itself later observes the flag). -/
theorem cycle_state_invariant_counterexample :
    (start_irrigation [0] (2/5) (3/5) 0 5 ⟨some "clear", some 30⟩
        ⟨false, none, none⟩).state = ⟨true, some 0, some 5⟩ ∧
    (stop_irrigation ⟨false⟩ ⟨true, some 0, some 5⟩).success = true ∧
    (stop_irrigation ⟨false⟩ ⟨true, some 0, some 5⟩).state =
      ⟨false, some 0, some 5⟩ ∧
    ¬ CycleInv ⟨false, some 0, some 5⟩ := by
  refine ⟨?_, ?_, ?_, ?_⟩
  · rw [start_irrigation_concrete 0]
  · rfl
  · rfl
  · simp [CycleInv]

/-- Claim C6 (amended).  The CycleState invariant (current_zone set exactly
when is_running) holds after every public controller operation and after
cycle completion, provided the running zone id is nonzero (the cleanup
guard is a Python truthiness test) and the cleanup collaborators do not
raise out of the stop path: it is preserved by start_irrigation (all
branches), by stop_irrigation when the pump stop does not raise, by a
completed irrigation cycle (including its exception handler), by
start_fertigation, and by stop_fertigation when the tank valve close does
not raise. -/
theorem cycle_state_invariant_preserved :
    (∀ (Z : List ℤ) (rwt fwt : ℚ) (z : ℤ) (now : ℚ) (env : StartEnv)
        (s : IrrState), CycleInv s →
      CycleInv (start_irrigation Z rwt fwt z now env s).state) ∧
    (∀ (env : StopEnv) (s : IrrState), CycleInv s →
      (∀ z, s.current_zone = some z → z ≠ 0) →
      env.pumpStopRaises = false →
      CycleInv (stop_irrigation env s).state) ∧
    (∀ (r : ℚ) (z : ℤ) (cfg : ZoneConfig) (env : CycleEnv) (s : IrrState),
      (irrigation_cycle r z cfg env s).completed = true →
      CycleInv (irrigation_cycle r z cfg env s).state) ∧
    (∀ (cw hw : Bool) (z : ℤ) (now : ℚ) (env : FertStartEnv) (s : IrrState),
      CycleInv s →
      CycleInv (start_fertigation cw hw z now env s).state) ∧
    (∀ (hf hi : Bool) (env : FertStopEnv) (s : IrrState), CycleInv s →
      (∀ z, s.current_zone = some z → z ≠ 0) →
      env.tankCloseRaises = false →
      CycleInv (stop_fertigation hf hi env s).state) := by
  refine ⟨?_, ?_, ?_, ?_, ?_⟩
  · intro Z rwt fwt z now env s hs
    unfold start_irrigation
    repeat' split
    all_goals first | exact hs | simp [CycleInv]
  · intro env s hs hz hpr
    unfold stop_irrigation
    by_cases hr : s.is_running = false
    · rw [if_pos hr]
      exact hs
    · rw [if_neg hr]
      dsimp only
      cases hcz : s.current_zone with
      | none => simp [CycleInv]
      | some z =>
        dsimp only
        have hz0 : z ≠ 0 := hz z hcz
        rw [if_neg hz0]
        unfold stop_irrigation_cleanup
        rw [if_neg (by simp [hpr])]
        simp [CycleInv, hpr]
  · intro r z cfg env s hcomp
    unfold irrigation_cycle at hcomp ⊢
    cases ho : env.openOutcome with
    | failEarly => simp [CycleInv, handlerState]
    | failLate => simp [CycleInv, handlerState]
    | ok =>
      rw [ho] at hcomp
      dsimp only at hcomp ⊢
      by_cases hp : env.pumpStartRaises = true
      · rw [if_pos hp]
        simp [CycleInv, handlerState]
      · rw [if_neg hp] at hcomp ⊢
        cases hexit : (irrigationLoop env.iters s).exit with
        | raised => simp [CycleInv, handlerState]
        | fuelOut =>
          rw [hexit] at hcomp
          exact absurd hcomp (by simp)
        | flagCleared =>
          by_cases hpr : env.stopEnv.pumpStopRaises = true
          · rw [if_pos (by rw [stop_cleanup_raised]; exact hpr)]
            simp [CycleInv, handlerState]
          · rw [if_neg (by rw [stop_cleanup_raised]; exact hpr)]
            unfold stop_irrigation_cleanup
            rw [if_neg hpr]
            simp [CycleInv]
        | timeout =>
          by_cases hpr : env.stopEnv.pumpStopRaises = true
          · rw [if_pos (by rw [stop_cleanup_raised]; exact hpr)]
            simp [CycleInv, handlerState]
          · rw [if_neg (by rw [stop_cleanup_raised]; exact hpr)]
            unfold stop_irrigation_cleanup
            rw [if_neg hpr]
            simp [CycleInv]
        | moisture =>
          by_cases hpr : env.stopEnv.pumpStopRaises = true
          · rw [if_pos (by rw [stop_cleanup_raised]; exact hpr)]
            simp [CycleInv, handlerState]
          · rw [if_neg (by rw [stop_cleanup_raised]; exact hpr)]
            unfold stop_irrigation_cleanup
            rw [if_neg hpr]
            simp [CycleInv]
  · intro cw hw z now env s hs
    unfold start_fertigation
    repeat' split
    all_goals first | exact hs | simp [CycleInv]
  · intro hf hi env s hs hz hpr
    unfold stop_fertigation
    by_cases hr : s.is_running = false
    · rw [if_pos hr]
      exact hs
    · rw [if_neg hr]
      dsimp only
      cases hcz : s.current_zone with
      | none => simp [CycleInv]
      | some z =>
        dsimp only
        have hz0 : z ≠ 0 := hz z hcz
        rw [if_neg hz0]
        unfold stop_fertigation_cleanup
        rw [if_neg (by simp [hpr])]
        simp [CycleInv, hpr]

/-- Witness for cycle_state_invariant_preserved at a concrete input. -/
theorem cycle_state_invariant_preserved_witness :
    (CycleInv ⟨true, some 1, some 5⟩ ∧
      (∀ z, (⟨true, some 1, some 5⟩ : IrrState).current_zone = some z → z ≠ 0) ∧
      (⟨false⟩ : StopEnv).pumpStopRaises = false) ∧
    CycleInv (stop_irrigation ⟨false⟩ ⟨true, some 1, some 5⟩).state := by
  have h1 : CycleInv (⟨true, some 1, some 5⟩ : IrrState) := by simp [CycleInv]
  have h2 : ∀ z, (⟨true, some 1, some 5⟩ : IrrState).current_zone = some z →
      z ≠ 0 := by
    intro z h
    simp at h
    omega
  exact ⟨⟨h1, h2, rfl⟩,
    cycle_state_invariant_preserved.2.1 ⟨false⟩ ⟨true, some 1, some 5⟩ h1 h2 rfl⟩

end AssisTea
